import Mathlib

/-!
Formalization of the cocobase client library (`cocobase_client`): a shallow
embedding of `record.py`, `types.py` and `client.py`, together with theorems
settling the specified behaviour of the `Record` accessors and the
`CocoBaseClient` operations.

JSON values are modelled by the inductive `Value`; Python floats are modelled
by their exact rational values (every IEEE double is a rational), Python
exceptions by the `Err` type together with `Except`, and the HTTP transport by
an explicit `Response` supplied to each operation, each operation returning
the list of wire requests it issued alongside its outcome.
-/

/-- Python exception values raised by the embedded code.  `cocobase` models
`exceptions.CocobaseError` (modelled from the spec: `exceptions.py` is not in
the source tree; the spec's client-raised error taxonomy is realised in the
code as this single exception class carrying a message).  The remaining
constructors model the Python builtins `ValueError`, `TypeError`, `KeyError`
and `AttributeError`. -/
inductive Err where
  | cocobase (msg : String)
  | valueError (msg : String)
  | typeError (msg : String)
  | keyError (key : String)
  | attributeError (msg : String)
deriving DecidableEq

/-- The HTTP method enumeration of `types.py`. -/
inductive HttpMethod where
  | get
  | post
  | delete
  | patch
deriving DecidableEq

/-- JSON-compatible Python values: `None`, booleans, integers, floats
(represented by their exact rational value), strings, lists and string-keyed
dictionaries. -/
inductive Value where
  | null
  | bool (b : Bool)
  | int (n : Int)
  | float (q : Rat)
  | str (s : String)
  | list (elems : List Value)
  | dict (entries : List (String × Value))

/-- Lookup in a Python dict modelled as an association list with unique keys
(first match wins). -/
def dictGet (d : List (String × Value)) (k : String) : Option Value :=
  match d with
  | [] => none
  | (k', v) :: rest => if k' = k then some v else dictGet rest k

/-- Python `str.strip()` on the character list: drop leading and trailing
whitespace. -/
def stripChars (l : List Char) : List Char :=
  ((l.dropWhile Char.isWhitespace).reverse.dropWhile Char.isWhitespace).reverse

/-- Python `value.strip()`. -/
def pyStrip (s : String) : String := String.mk (stripChars s.data)

/-- Python `value.lower()` (ASCII case folding, which covers the tokens the
code compares against). -/
def pyLower (s : String) : String := String.mk (s.data.map Char.toLower)

/-- Numeric value of a digit character list (most significant first). -/
def natOfDigits : List Char → Nat → Nat
  | [], acc => acc
  | c :: cs, acc => natOfDigits cs (acc * 10 + (c.toNat - 48))

/-- Value of a nonempty all-digit character list, `none` otherwise; helper for
Python `int(str)`. -/
def digitsVal (l : List Char) : Option Nat :=
  if l.isEmpty then none
  else if l.all Char.isDigit then some (natOfDigits l 0)
  else none

/-- Python `int(s)` for a string argument: surrounding whitespace is ignored,
an optional sign is followed by decimal digits; anything else raises. -/
def parsePyInt (s : String) : Option Int :=
  match (pyStrip s).data with
  | '-' :: rest => (digitsVal rest).map (fun n => -(n : Int))
  | '+' :: rest => (digitsVal rest).map (fun n => (n : Int))
  | l => (digitsVal l).map (fun n => (n : Int))

/-- Python `int(float)`: truncation toward zero of the exact rational value. -/
def ratTrunc (q : Rat) : Int := q.num.tdiv (q.den : Int)

/-- Python `int(value)` on a JSON value: booleans are the integers 0 and 1,
integers pass through, floats truncate toward zero, strings parse as decimal
integers (raising `ValueError` otherwise), and every other value raises
`TypeError`. -/
def pyInt : Value → Except Err Int
  | .bool b => .ok (if b then 1 else 0)
  | .int n => .ok n
  | .float q => .ok (ratTrunc q)
  | .str s =>
      match parsePyInt s with
      | some n => .ok n
      | none => .error (.valueError ("invalid literal for int with base 10: " ++ s))
  | .null => .error (.typeError "int argument must be a string or a number, not NoneType")
  | .list _ => .error (.typeError "int argument must be a string or a number, not list")
  | .dict _ => .error (.typeError "int argument must be a string or a number, not dict")

mutual

/-- Python `repr(value)` for JSON values (`str` and `repr` agree on every
value except strings themselves).  The rendering of numeric values is a
locale-independent decimal form; no theorem below depends on its exact text,
only on `str` being total. -/
def pyRepr : Value → String
  | .null => "None"
  | .bool b => if b then "True" else "False"
  | .int n => toString n
  | .float q => toString q
  | .str s => "'" ++ s ++ "'"
  | .list l => "[" ++ String.intercalate ", " (pyReprList l) ++ "]"
  | .dict d => "\x7b" ++ String.intercalate ", " (pyReprEntries d) ++ "\x7d"

/-- Renderings of the elements of a list value. -/
def pyReprList : List Value → List String
  | [] => []
  | v :: vs => pyRepr v :: pyReprList vs

/-- Renderings of the entries of a dict value. -/
def pyReprEntries : List (String × Value) → List String
  | [] => []
  | (k, v) :: es => ("'" ++ k ++ "': " ++ pyRepr v) :: pyReprEntries es

end

/-- Python `str(value)` on a JSON value: total, as string conversion of a
JSON scalar or container always succeeds in Python. -/
def pyStr : Value → String
  | .str s => s
  | v => pyRepr v

/-- Python `datetime.fromtimestamp(value)`: accepts an int, float or bool
(a bool being an int subclass) as epoch seconds and raises `TypeError` on any
other type.  The resulting instant is modelled by its epoch-seconds value. -/
def pyFromtimestamp : Value → Except Err Rat
  | .int n => .ok (n : Rat)
  | .float q => .ok q
  | .bool b => .ok (if b then 1 else 0)
  | _ => .error (.typeError "an integer is required, not str or NoneType")

/-- The `Record` class of `record.py`: `data` holds whatever the constructing
blob's `"data"` entry held (the class annotation declares it a dict, but the
constructor stores the raw value), `createdAt` is the epoch-seconds instant
produced by `datetime.fromtimestamp`. -/
structure Record where
  data : Value
  id : Value
  collectionId : Value
  createdAt : Rat
  collection : Value

namespace Record

/-- The `Record.__init__` constructor: field defaults come from `dict.get`
with the defaults of the source (`{}`, `""`, `0`, `{}`), `created_at` is fed
through `datetime.fromtimestamp`, which raises `TypeError` on a non-numeric
value; a non-dict argument raises `AttributeError` at the first `.get`. -/
def ofJson : Value → Except Err Record
  | .dict d =>
      match pyFromtimestamp ((dictGet d "created_at").getD (.int 0)) with
      | .error e => .error e
      | .ok t =>
          .ok { data := (dictGet d "data").getD (.dict [])
                id := (dictGet d "id").getD (.str "")
                collectionId := (dictGet d "collection_id").getD (.str "")
                createdAt := t
                collection := (dictGet d "collection").getD (.dict []) }
  | _ => .error (.attributeError "object has no attribute get")

/-- The `Record.__getitem__` method: `self.data[key]`, raising `KeyError` for
an absent key (and `TypeError` if `data` is not a mapping). -/
def getitem (r : Record) (key : String) : Except Err Value :=
  match r.data with
  | .dict d =>
      match dictGet d key with
      | some v => .ok v
      | none => .error (.keyError key)
  | _ => .error (.typeError "object is not subscriptable")

/-- The `Record.get` method: `self.data.get(key, default)` with default
`None`. -/
def get (r : Record) (key : String) (default : Value := .null) : Except Err Value :=
  match r.data with
  | .dict d => .ok ((dictGet d key).getD default)
  | _ => .error (.attributeError "object has no attribute get")

/-- The `Record.get_string` accessor: `value = self.data.get(key)`; returns
`str(value)` unless the value is `None` (absent key or stored null), in which
case it returns `None`.  The `try` around the conversion re-raises as
`TypeError` in strict mode, but `str` on a JSON value is total, so that
branch is dead. -/
def get_string (r : Record) (key : String) (raise_error : Bool := false) :
    Except Err (Option String) :=
  match r.data with
  | .dict d =>
      match dictGet d key with
      | none => .ok none
      | some .null => .ok none
      | some v => .ok (some (pyStr v))
  | _ => .error (.attributeError "object has no attribute get")

/-- The `Record.get_bool` accessor of `record.py`: `None` (absent or stored
null) yields `None`; a native bool passes through; a string is stripped,
lowercased and matched against the true/false token sets; every remaining
case runs `bool(int(value))`, whose failure yields `None` or, with
`raise_error`, a `TypeError`. -/
def get_bool (r : Record) (key : String) (raise_error : Bool := false) :
    Except Err (Option Bool) :=
  match r.data with
  | .dict d =>
      match dictGet d key with
      | none => .ok none
      | some .null => .ok none
      | some (.bool b) => .ok (some b)
      | some (.str s) =>
          if pyLower (pyStrip s) = "true" ∨ pyLower (pyStrip s) = "1" ∨
              pyLower (pyStrip s) = "yes" then .ok (some true)
          else if pyLower (pyStrip s) = "false" ∨ pyLower (pyStrip s) = "0" ∨
              pyLower (pyStrip s) = "no" then .ok (some false)
          else
            match pyInt (.str s) with
            | .ok n => .ok (some (n != 0))
            | .error _ =>
                if raise_error then
                  .error (.typeError ("Value for " ++ key ++ " is not bool-convertible"))
                else .ok none
      | some v =>
          match pyInt v with
          | .ok n => .ok (some (n != 0))
          | .error _ =>
              if raise_error then
                .error (.typeError ("Value for " ++ key ++ " is not bool-convertible"))
              else .ok none
  | _ => .error (.attributeError "object has no attribute get")

end Record

/-- Modelled from the spec: `config.BASEURL` (`config.py` is not in the
source tree); the spec fixes only that there is a single base URL every path
is resolved against, so the concrete text is a placeholder no theorem
depends on. -/
def BASEURL : String := "https://api.cocobase.example"

/-- Modelled from the spec: `query.QueryBuilder` (`query.py` is not in the
source tree).  The spec's filter builder serializes an ordered predicate list
into a canonical query string via `build()`; the client only calls `build()`,
so the builder is modelled by the query string it serializes to. -/
structure QueryBuilder where
  queryString : String

/-- The `build()` method of the filter builder, returning its serialized
query string. -/
def QueryBuilder.build (q : QueryBuilder) : String := q.queryString

/-- An HTTP response from the remote service: status code, raw body text and
parsed JSON body. -/
structure Response where
  status_code : Int
  text : String
  json : Value

/-- A wire request actually handed to the transport: full URL, the transport
function invoked (`requests.get` or `requests.post` are the only two the
dispatcher calls), headers, and the JSON payload if any. -/
structure HttpRequest where
  url : String
  wireMethod : HttpMethod
  headers : List (String × String)
  jsonBody : Option Value

/-- The `CocoBaseClient` class: stored API key and optional bearer token. -/
structure CocoBaseClient where
  api_key : String
  token : Option String

namespace CocoBaseClient

/-- The `CocoBaseClient.__init__` constructor: stores the key; the token is
stored when given and otherwise left `None`.  No validation is performed. -/
def init (api_key : String) (token : Option String := none) : CocoBaseClient :=
  { api_key := api_key, token := token }

/-- True when the path already leads with a path separator. -/
def startsWithSlash (s : String) : Bool :=
  match s.data with
  | c :: _ => c = '/'
  | [] => false

/-- The `CocoBaseClient.__request__` dispatcher: prefixes a missing leading
slash, raises `ValueError` for any method other than `HttpMethod.get` and
`HttpMethod.post`, resolves the path against `BASEURL`, and calls
`requests.get` (no body) or `requests.post` (JSON body) with the `x-api-key`
header.  The request actually sent is returned; the response is supplied to
each operation separately. -/
def «__request__» (c : CocoBaseClient) (url : String)
    (method : HttpMethod := .get) (data : Option Value := none) :
    Except Err HttpRequest :=
  let url' := if startsWithSlash url then url else "/" ++ url
  if method = HttpMethod.get ∨ method = HttpMethod.post then
    if method = HttpMethod.get then
      .ok { url := BASEURL ++ url', wireMethod := .get
            headers := [("x-api-key", c.api_key)], jsonBody := none }
    else
      .ok { url := BASEURL ++ url', wireMethod := .post
            headers := [("x-api-key", c.api_key)], jsonBody := data }
  else
    .error (.valueError "Invalid HTTP method. Use HttpMethod.get or HttpMethod.post.")

/-- The `create_collection` operation: builds `{name, webhook_url?}`, POSTs
to `/collections` with no prior validation of the name, then classifies the
status: 400/422/500 raise `CocobaseError`, 201 returns the parsed body, and
any other status falls through to `None`. -/
def create_collection (c : CocoBaseClient) (collection_name : Value)
    (webhookurl : Option String := none) (resp : Response) :
    List HttpRequest × Except Err (Option Value) :=
  match «__request__» c "/collections" HttpMethod.post
      (some (.dict ([("name", collection_name)] ++
        (match webhookurl with
         | some w => [("webhook_url", .str w)]
         | none => [])))) with
  | .error e => ([], .error e)
  | .ok rq =>
      ([rq],
        if resp.status_code = 400 then .error (.cocobase ("Invalid Request: " ++ resp.text))
        else if resp.status_code = 422 then .error (.cocobase ("A field is missing: " ++ resp.text))
        else if resp.status_code = 500 then .error (.cocobase "Internal Server Error")
        else if resp.status_code = 201 then .ok (some resp.json)
        else .ok none)

/-- The `update_collection` operation: requires a collection id and at least
one of name/webhook URL, POSTs the fields to `/collections/{id}`, then
classifies the status with success on 200. -/
def update_collection (c : CocoBaseClient) (collection_id : Option String)
    (collection_name : Option String := none) (webhookurl : Option String := none)
    (resp : Response) : List HttpRequest × Except Err (Option Value) :=
  match collection_id with
  | none => ([], .error (.cocobase "Collection ID must be provided."))
  | some cid =>
      if webhookurl = none ∧ collection_name = none then
        ([], .error (.cocobase "At least one of webhook_url or collection_name must be provided."))
      else
        match «__request__» c ("/collections/" ++ cid) HttpMethod.post
            (some (.dict
              ((match webhookurl with
                | some w => [("webhook_url", .str w)]
                | none => []) ++
               (match collection_name with
                | some n => [("name", .str n)]
                | none => [])))) with
        | .error e => ([], .error e)
        | .ok rq =>
            ([rq],
              if resp.status_code = 400 then .error (.cocobase ("Invalid Request: " ++ resp.text))
              else if resp.status_code = 422 then .error (.cocobase ("A field is missing: " ++ resp.text))
              else if resp.status_code = 500 then .error (.cocobase "Internal Server Error")
              else if resp.status_code = 200 then .ok (some resp.json)
              else .ok none)

/-- The `delete_collection` operation: requires a collection id, POSTs to
`/collections/{id}` with no body, then classifies the status with success
(`True`) on 204 and fall-through `None` otherwise. -/
def delete_collection (c : CocoBaseClient) (collection_id : Option String)
    (resp : Response) : List HttpRequest × Except Err (Option Bool) :=
  match collection_id with
  | none => ([], .error (.cocobase "Collection ID must be provided."))
  | some cid =>
      match «__request__» c ("/collections/" ++ cid) HttpMethod.post none with
      | .error e => ([], .error e)
      | .ok rq =>
          ([rq],
            if resp.status_code = 400 then .error (.cocobase ("Invalid Request: " ++ resp.text))
            else if resp.status_code = 422 then .error (.cocobase ("A field is missing: " ++ resp.text))
            else if resp.status_code = 500 then .error (.cocobase "Internal Server Error")
            else if resp.status_code = 204 then .ok (some true)
            else .ok none)

/-- The `create_document` operation: requires a collection id and a dict
payload, POSTs `{data}` to `/collections/documents?collection={id}`, then
classifies the status; a 201 body is wrapped in a `Record` (whose
construction can itself raise). -/
def create_document (c : CocoBaseClient) (collection_id : Option String)
    (data : Value) (resp : Response) :
    List HttpRequest × Except Err (Option Record) :=
  match collection_id with
  | none => ([], .error (.cocobase "Collection ID must be provided."))
  | some cid =>
      match data with
      | .dict _ =>
          match «__request__» c ("/collections/documents?collection=" ++ cid)
              HttpMethod.post (some (.dict [("data", data)])) with
          | .error e => ([], .error e)
          | .ok rq =>
              ([rq],
                if resp.status_code = 400 then .error (.cocobase ("Invalid Request: " ++ resp.text))
                else if resp.status_code = 422 then .error (.cocobase ("A field is missing: " ++ resp.text))
                else if resp.status_code = 500 then .error (.cocobase "Internal Server Error")
                else if resp.status_code = 201 then
                  match Record.ofJson resp.json with
                  | .ok r => .ok (some r)
                  | .error e => .error e
                else .ok none)
      | _ => ([], .error (.cocobase "Data must be a dictionary."))

/-- The `list_documents` operation: requires a collection id, GETs
`/collections/{id}/documents` with the serialized filter query appended when
a builder is given, then classifies the status; a 200 body is iterated and
each element wrapped in a `Record` (a non-list body raises when iterated,
modelled as `TypeError`). -/
def list_documents (c : CocoBaseClient) (collection_id : Option String)
    (query : Option QueryBuilder := none) (resp : Response) :
    List HttpRequest × Except Err (Option (List Record)) :=
  match collection_id with
  | none => ([], .error (.cocobase "Collection ID must be provided."))
  | some cid =>
      match «__request__» c
          (match query with
           | some q => "/collections/" ++ cid ++ "/documents?" ++ q.build
           | none => "/collections/" ++ cid ++ "/documents")
          HttpMethod.get none with
      | .error e => ([], .error e)
      | .ok rq =>
          ([rq],
            if resp.status_code = 400 then .error (.cocobase ("Invalid Request: " ++ resp.text))
            else if resp.status_code = 422 then .error (.cocobase ("A field is missing: " ++ resp.text))
            else if resp.status_code = 500 then .error (.cocobase "Internal Server Error")
            else if resp.status_code = 200 then
              match resp.json with
              | .list docs =>
                  match docs.mapM Record.ofJson with
                  | .ok rs => .ok (some rs)
                  | .error e => .error e
              | _ => .error (.typeError "object is not iterable")
            else .ok none)

/-- The `get_document` operation: requires collection and document ids, GETs
`/collections/{id}/documents/{docId}`, then classifies the status; a 200
body is wrapped in a `Record`. -/
def get_document (c : CocoBaseClient) (collection_id : Option String)
    (document_id : Option String) (resp : Response) :
    List HttpRequest × Except Err (Option Record) :=
  match collection_id with
  | none => ([], .error (.cocobase "Collection ID must be provided."))
  | some cid =>
      match document_id with
      | none => ([], .error (.cocobase "Document ID must be provided."))
      | some did =>
          match «__request__» c ("/collections/" ++ cid ++ "/documents/" ++ did)
              HttpMethod.get none with
          | .error e => ([], .error e)
          | .ok rq =>
              ([rq],
                if resp.status_code = 400 then .error (.cocobase ("Invalid Request: " ++ resp.text))
                else if resp.status_code = 422 then .error (.cocobase ("A field is missing: " ++ resp.text))
                else if resp.status_code = 500 then .error (.cocobase "Internal Server Error")
                else if resp.status_code = 200 then
                  match Record.ofJson resp.json with
                  | .ok r => .ok (some r)
                  | .error e => .error e
                else .ok none)

/-- The `delete_document` operation as written in the source: after the id
checks it calls the dispatcher with `HttpMethod.delete`, which the dispatcher
rejects with `ValueError`; the status classification below the call (400/422/
500 raise, 200/204 return `True`, otherwise `False`) is therefore dead
code. -/
def delete_document (c : CocoBaseClient) (collection_id : Option String)
    (document_id : Option String) (resp : Response) :
    List HttpRequest × Except Err Bool :=
  match collection_id with
  | none => ([], .error (.cocobase "Collection ID must be provided."))
  | some cid =>
      match document_id with
      | none => ([], .error (.cocobase "Document ID must be provided."))
      | some did =>
          match «__request__» c ("/collections/" ++ cid ++ "/documents/" ++ did)
              HttpMethod.delete none with
          | .error e => ([], .error e)
          | .ok rq =>
              ([rq],
                if resp.status_code = 400 then .error (.cocobase ("Invalid Request: " ++ resp.text))
                else if resp.status_code = 422 then .error (.cocobase ("A field is missing: " ++ resp.text))
                else if resp.status_code = 500 then .error (.cocobase "Internal Server Error")
                else if resp.status_code = 200 ∨ resp.status_code = 204 then .ok true
                else .ok false)

/-- The `update_document` operation as written in the source: after the id
and dict checks it calls the dispatcher with `HttpMethod.patch`, which the
dispatcher rejects with `ValueError`; the status classification below the
call (success on 200 wrapping the body in a `Record`) is therefore dead
code. -/
def update_document (c : CocoBaseClient) (collection_id : Option String)
    (document_id : Option String) (data : Value) (resp : Response) :
    List HttpRequest × Except Err (Option Record) :=
  match collection_id with
  | none => ([], .error (.cocobase "Collection ID must be provided."))
  | some cid =>
      match document_id with
      | none => ([], .error (.cocobase "Document ID must be provided."))
      | some did =>
          match data with
          | .dict _ =>
              match «__request__» c ("/collections/" ++ cid ++ "/documents/" ++ did)
                  HttpMethod.patch (some (.dict [("data", data)])) with
              | .error e => ([], .error e)
              | .ok rq =>
                  ([rq],
                    if resp.status_code = 400 then .error (.cocobase ("Invalid Request: " ++ resp.text))
                    else if resp.status_code = 422 then .error (.cocobase ("A field is missing: " ++ resp.text))
                    else if resp.status_code = 500 then .error (.cocobase "Internal Server Error")
                    else if resp.status_code = 200 then
                      match Record.ofJson resp.json with
                      | .ok r => .ok (some r)
                      | .error e => .error e
                    else .ok none)
          | _ => ([], .error (.cocobase "Data must be a dictionary."))

end CocoBaseClient

/-- The rational value one half, the exact value of the Python float `0.5`. -/
def half : Rat := ⟨1, 2, by decide, by simp⟩

/-- A record whose field map stores the float `0.5` at key `"k"`. -/
def recHalf : Record :=
  { data := .dict [("k", .float half)], id := .str "", collectionId := .str ""
    createdAt := 0, collection := .dict [] }

/-- A record whose field map stores the strings `"YES"` and `"maybe"`. -/
def recTokens : Record :=
  { data := .dict [("y", .str "YES"), ("m", .str "maybe")], id := .str ""
    collectionId := .str "", createdAt := 0, collection := .dict [] }

/-- A concrete document blob holding one data field and no `collection_id`
or `created_at` entries. -/
def blobRT : List (String × Value) := [("data", .dict [("a", .int 1)]), ("id", .str "doc1")]

/-- The record the constructor builds from `blobRT`. -/
def recRT : Record :=
  { data := .dict [("a", .int 1)], id := .str "doc1", collectionId := .str ""
    createdAt := 0, collection := .dict [] }

/-- A record whose field map stores the string `"v"` at key `"k"`. -/
def recStr : Record :=
  { data := .dict [("k", .str "v")], id := .str "", collectionId := .str ""
    createdAt := 0, collection := .dict [] }

/-- A record whose field map stores the integer `3` at key `"p"`. -/
def recIdx : Record :=
  { data := .dict [("p", .int 3)], id := .str "", collectionId := .str ""
    createdAt := 0, collection := .dict [] }

/-- The wire request the dispatcher builds for a GET of `/collections` with
API key `"k"`. -/
def reqKeyed : HttpRequest :=
  { url := BASEURL ++ "/collections", wireMethod := .get
    headers := [("x-api-key", "k")], jsonBody := none }

/-- C1: `delete_document` never issues its DELETE request: for every client,
non-null pair of identifiers and response, it raises `ValueError` from the
dispatcher (which only accepts get/post) with an empty request trace, instead
of issuing one DELETE request and returning a boolean as the specification
and the function's own return annotation and dead status-handling code
describe. -/
theorem delete_document_always_value_error (c : CocoBaseClient) (cid did : String)
    (resp : Response) :
    c.delete_document (some cid) (some did) resp =
      ([], .error (.valueError "Invalid HTTP method. Use HttpMethod.get or HttpMethod.post.")) := rfl

/-- C2: `update_document` never issues its PATCH request: for every client,
non-null identifiers, dict payload and response, it raises `ValueError` from
the dispatcher (which only accepts get/post) with an empty request trace,
instead of issuing one PATCH request and returning the updated record on
200. -/
theorem update_document_always_value_error (c : CocoBaseClient) (cid did : String)
    (d : List (String × Value)) (resp : Response) :
    c.update_document (some cid) (some did) (.dict d) resp =
      ([], .error (.valueError "Invalid HTTP method. Use HttpMethod.get or HttpMethod.post.")) := rfl

/-- C3 counterexample: `get_document` on a 404 response returns `None`
rather than raising any error, refuting the claim that statuses outside
the 400/422/500 table raise an `UnexpectedStatus` error carrying status and
body. -/
theorem get_document_404_returns_none_cex :
    (CocoBaseClient.get_document ⟨"key", none⟩ (some "c") (some "d")
        ⟨404, "not found", .null⟩).2 = .ok none := rfl

/-- C3 amended: for every operation that reaches response classification
(all but `delete_document` and `update_document`, which raise `ValueError`
beforehand), a response whose status is non-2xx and not in 400/422/500 makes
the operation return `None`; no error is raised and neither status nor body
is propagated. -/
theorem unclassified_status_returns_none (c : CocoBaseClient) (resp : Response)
    (nm : Value) (cid did nm2 : String) (w : Option String) (q : Option QueryBuilder)
    (d : List (String × Value))
    (h2xx : ¬ (200 ≤ resp.status_code ∧ resp.status_code < 300))
    (h400 : resp.status_code ≠ 400) (h422 : resp.status_code ≠ 422)
    (h500 : resp.status_code ≠ 500) :
    (c.create_collection nm w resp).2 = .ok none ∧
    (c.update_collection (some cid) (some nm2) w resp).2 = .ok none ∧
    (c.delete_collection (some cid) resp).2 = .ok none ∧
    (c.create_document (some cid) (.dict d) resp).2 = .ok none ∧
    (c.list_documents (some cid) q resp).2 = .ok none ∧
    (c.get_document (some cid) (some did) resp).2 = .ok none := by
  have h200 : resp.status_code ≠ 200 := fun hh => h2xx (by omega)
  have h201 : resp.status_code ≠ 201 := fun hh => h2xx (by omega)
  have h204 : resp.status_code ≠ 204 := fun hh => h2xx (by omega)
  refine ⟨?_, ?_, ?_, ?_, ?_, ?_⟩
  · simp only [CocoBaseClient.create_collection, CocoBaseClient.«__request__»,
      CocoBaseClient.startsWithSlash]
    simp [h400, h422, h500, h201]
  · simp only [CocoBaseClient.update_collection, CocoBaseClient.«__request__»,
      CocoBaseClient.startsWithSlash]
    simp [h400, h422, h500, h200]
  · simp only [CocoBaseClient.delete_collection, CocoBaseClient.«__request__»,
      CocoBaseClient.startsWithSlash]
    simp [h400, h422, h500, h204]
  · simp only [CocoBaseClient.create_document, CocoBaseClient.«__request__»,
      CocoBaseClient.startsWithSlash]
    simp [h400, h422, h500, h201]
  · simp only [CocoBaseClient.list_documents, CocoBaseClient.«__request__»,
      CocoBaseClient.startsWithSlash]
    simp [h400, h422, h500, h200]
  · simp only [CocoBaseClient.get_document, CocoBaseClient.«__request__»,
      CocoBaseClient.startsWithSlash]
    simp [h400, h422, h500, h200]

/-- C3 amended witness: `create_collection` on a 404 response returns
`None`. -/
theorem unclassified_status_returns_none_witness :
    (CocoBaseClient.create_collection ⟨"key", none⟩ (.str "n") none
        ⟨404, "not found", .null⟩).2 = .ok none :=
  (unclassified_status_returns_none ⟨"key", none⟩ ⟨404, "not found", .null⟩
    (.str "n") "c" "d" "n2" none none [] (by decide) (by decide) (by decide)
    (by decide)).1

/-- C4 counterexample: `create_collection` performs no validation of its
collection name: called with a null name it issues one POST request carrying
`name: null` and returns the parsed 201 body, refuting the claim that every
operation fails fast with an invalid-argument error when a required
identifier is absent. -/
theorem create_collection_skips_validation_cex :
    CocoBaseClient.create_collection ⟨"key", none⟩ .null none ⟨201, "", .dict []⟩ =
      ([{ url := BASEURL ++ "/collections", wireMethod := .post
          headers := [("x-api-key", "key")]
          jsonBody := some (.dict [("name", .null)]) }],
        .ok (some (.dict []))) := rfl

/-- C4 amended: every operation taking collection or document identifiers
(`update_collection`, `delete_collection`, `create_document`,
`list_documents`, `get_document`, `delete_document`, `update_document`)
checks them and fails fast with `CocobaseError` before any request when one
is absent; `create_collection` alone performs no presence check on its
name. -/
theorem missing_identifier_fails_fast (c : CocoBaseClient) (resp : Response)
    (cid : String) (nm w : Option String) (q : Option QueryBuilder)
    (dOpt : Option String) (dataV : Value) :
    c.update_collection none nm w resp =
      ([], .error (.cocobase "Collection ID must be provided.")) ∧
    c.delete_collection none resp =
      ([], .error (.cocobase "Collection ID must be provided.")) ∧
    c.create_document none dataV resp =
      ([], .error (.cocobase "Collection ID must be provided.")) ∧
    c.list_documents none q resp =
      ([], .error (.cocobase "Collection ID must be provided.")) ∧
    c.get_document none dOpt resp =
      ([], .error (.cocobase "Collection ID must be provided.")) ∧
    c.get_document (some cid) none resp =
      ([], .error (.cocobase "Document ID must be provided.")) ∧
    c.delete_document none dOpt resp =
      ([], .error (.cocobase "Collection ID must be provided.")) ∧
    c.delete_document (some cid) none resp =
      ([], .error (.cocobase "Document ID must be provided.")) ∧
    c.update_document none dOpt dataV resp =
      ([], .error (.cocobase "Collection ID must be provided.")) ∧
    c.update_document (some cid) none dataV resp =
      ([], .error (.cocobase "Document ID must be provided.")) :=
  ⟨rfl, rfl, rfl, rfl, rfl, rfl, rfl, rfl, rfl, rfl⟩

/-- C5 counterexample: constructing the client with the empty API key
succeeds (no validation occurs) and the empty key is stored and attached as
the `x-api-key` header, refuting the claim that construction with an empty
key fails. -/
theorem init_empty_key_succeeds_cex :
    CocoBaseClient.init "" none = { api_key := "", token := none } ∧
    CocoBaseClient.«__request__» (CocoBaseClient.init "" none) "/collections"
        HttpMethod.get none =
      .ok { url := BASEURL ++ "/collections", wireMethod := .get
            headers := [("x-api-key", "")], jsonBody := none } :=
  ⟨rfl, rfl⟩

/-- C5 amended: construction never fails and performs no validation: any API
key (empty included) is stored unchanged together with the optional token,
and every request the dispatcher builds carries exactly the header
`x-api-key` with the stored key. -/
theorem init_stores_key_unvalidated (key : String) (token : Option String) :
    (CocoBaseClient.init key token).api_key = key ∧
    (CocoBaseClient.init key token).token = token ∧
    ∀ (url : String) (m : HttpMethod) (d : Option Value) (rq : HttpRequest),
      CocoBaseClient.«__request__» (CocoBaseClient.init key token) url m d = .ok rq →
      rq.headers = [("x-api-key", key)] := by
  refine ⟨rfl, rfl, ?_⟩
  intro url m d rq h
  cases m <;> simp [CocoBaseClient.«__request__»] at h <;> subst h <;> rfl

/-- C5 amended witness: the dispatcher's GET of `/collections` for the
client built with key `"k"` carries exactly the `x-api-key: k` header. -/
theorem init_stores_key_unvalidated_witness :
    reqKeyed.headers = [("x-api-key", "k")] :=
  (init_stores_key_unvalidated "k" none).2.2 "/collections" HttpMethod.get none
    reqKeyed rfl

/-- C6 counterexample: the 500 error of `create_collection` is the fixed
message `Internal Server Error`: two responses that differ only in their
body text produce identical errors, so the raised error does not carry the
raw response body, refuting the claim that every error-producing status
propagates the body. -/
theorem internal_error_drops_body_cex :
    (CocoBaseClient.create_collection ⟨"key", none⟩ (.str "n") none
        ⟨500, "boom", .null⟩).2 = .error (.cocobase "Internal Server Error") ∧
    (CocoBaseClient.create_collection ⟨"key", none⟩ (.str "n") none
        ⟨500, "a very different body", .null⟩).2 =
      (CocoBaseClient.create_collection ⟨"key", none⟩ (.str "n") none
        ⟨500, "boom", .null⟩).2 :=
  ⟨rfl, rfl⟩

/-- C6 amended: for every operation that reaches response classification,
the 400 and 422 errors carry the raw response body text in their messages,
while the 500 error is the fixed message `Internal Server Error` without the
body (and statuses outside the table raise no error at all). -/
theorem error_body_propagation (c : CocoBaseClient) (t : String) (j : Value)
    (nm : Value) (cid did nm2 : String) (w : Option String)
    (q : Option QueryBuilder) (d : List (String × Value)) :
    ((c.create_collection nm w ⟨400, t, j⟩).2 =
        .error (.cocobase ("Invalid Request: " ++ t)) ∧
      (c.create_collection nm w ⟨422, t, j⟩).2 =
        .error (.cocobase ("A field is missing: " ++ t)) ∧
      (c.create_collection nm w ⟨500, t, j⟩).2 =
        .error (.cocobase "Internal Server Error")) ∧
    ((c.update_collection (some cid) (some nm2) none ⟨400, t, j⟩).2 =
        .error (.cocobase ("Invalid Request: " ++ t)) ∧
      (c.update_collection (some cid) (some nm2) none ⟨422, t, j⟩).2 =
        .error (.cocobase ("A field is missing: " ++ t)) ∧
      (c.update_collection (some cid) (some nm2) none ⟨500, t, j⟩).2 =
        .error (.cocobase "Internal Server Error")) ∧
    ((c.delete_collection (some cid) ⟨400, t, j⟩).2 =
        .error (.cocobase ("Invalid Request: " ++ t)) ∧
      (c.delete_collection (some cid) ⟨422, t, j⟩).2 =
        .error (.cocobase ("A field is missing: " ++ t)) ∧
      (c.delete_collection (some cid) ⟨500, t, j⟩).2 =
        .error (.cocobase "Internal Server Error")) ∧
    ((c.create_document (some cid) (.dict d) ⟨400, t, j⟩).2 =
        .error (.cocobase ("Invalid Request: " ++ t)) ∧
      (c.create_document (some cid) (.dict d) ⟨422, t, j⟩).2 =
        .error (.cocobase ("A field is missing: " ++ t)) ∧
      (c.create_document (some cid) (.dict d) ⟨500, t, j⟩).2 =
        .error (.cocobase "Internal Server Error")) ∧
    ((c.list_documents (some cid) q ⟨400, t, j⟩).2 =
        .error (.cocobase ("Invalid Request: " ++ t)) ∧
      (c.list_documents (some cid) q ⟨422, t, j⟩).2 =
        .error (.cocobase ("A field is missing: " ++ t)) ∧
      (c.list_documents (some cid) q ⟨500, t, j⟩).2 =
        .error (.cocobase "Internal Server Error")) ∧
    ((c.get_document (some cid) (some did) ⟨400, t, j⟩).2 =
        .error (.cocobase ("Invalid Request: " ++ t)) ∧
      (c.get_document (some cid) (some did) ⟨422, t, j⟩).2 =
        .error (.cocobase ("A field is missing: " ++ t)) ∧
      (c.get_document (some cid) (some did) ⟨500, t, j⟩).2 =
        .error (.cocobase "Internal Server Error")) :=
  ⟨⟨rfl, rfl, rfl⟩, ⟨rfl, rfl, rfl⟩, ⟨rfl, rfl, rfl⟩, ⟨rfl, rfl, rfl⟩,
    ⟨rfl, rfl, rfl⟩, ⟨rfl, rfl, rfl⟩⟩

/-- C7 counterexample: the float `0.5` is non-zero, yet `get_bool` coerces
it to `false` in both modes, because the code computes `bool(int(value))`
and `int` truncates toward zero; this refutes the claimed coercion by plain
numeric truthiness (non-zero yields true). -/
theorem get_bool_numeric_truthiness_cex :
    half ≠ 0 ∧
    Record.get_bool recHalf "k" false = .ok (some false) ∧
    Record.get_bool recHalf "k" true = .ok (some false) :=
  ⟨by decide, rfl, rfl⟩

/-- C7 amended: the full coercion policy of `get_bool`, in priority order:
an absent key or stored null yields the absent result; a native boolean
passes through; a string is whitespace-trimmed and lowercased, then matched
against the true/false token sets; every remaining value (including every
non-matching string) is coerced by `bool(int(value))`, i.e. integer
conversion (truncating floats toward zero, parsing integer strings) followed
by a non-zero test, whose failure yields the absent result in non-strict
mode and a `TypeError` in strict mode; in particular `"YES"` yields true and
`"maybe"` yields the absent result or the strict error. -/
theorem get_bool_policy (r : Record) (d : List (String × Value)) (key : String)
    (raise_error : Bool) (h : r.data = .dict d) :
    (dictGet d key = none → r.get_bool key raise_error = .ok none) ∧
    (dictGet d key = some .null → r.get_bool key raise_error = .ok none) ∧
    (∀ b, dictGet d key = some (.bool b) → r.get_bool key raise_error = .ok (some b)) ∧
    (∀ s, dictGet d key = some (.str s) →
      (pyLower (pyStrip s) = "true" ∨ pyLower (pyStrip s) = "1" ∨
          pyLower (pyStrip s) = "yes" →
        r.get_bool key raise_error = .ok (some true)) ∧
      (pyLower (pyStrip s) = "false" ∨ pyLower (pyStrip s) = "0" ∨
          pyLower (pyStrip s) = "no" →
        r.get_bool key raise_error = .ok (some false)) ∧
      (¬ (pyLower (pyStrip s) = "true" ∨ pyLower (pyStrip s) = "1" ∨
          pyLower (pyStrip s) = "yes") →
       ¬ (pyLower (pyStrip s) = "false" ∨ pyLower (pyStrip s) = "0" ∨
          pyLower (pyStrip s) = "no") →
        r.get_bool key raise_error =
          (match pyInt (.str s) with
           | .ok n => .ok (some (n != 0))
           | .error _ =>
               if raise_error then
                 .error (.typeError ("Value for " ++ key ++ " is not bool-convertible"))
               else .ok none))) ∧
    (∀ n, dictGet d key = some (.int n) →
      r.get_bool key raise_error = .ok (some (n != 0))) ∧
    (∀ q, dictGet d key = some (.float q) →
      r.get_bool key raise_error = .ok (some (ratTrunc q != 0))) ∧
    (∀ l, dictGet d key = some (.list l) →
      r.get_bool key raise_error =
        (if raise_error then
          .error (.typeError ("Value for " ++ key ++ " is not bool-convertible"))
         else .ok none)) ∧
    (∀ dd, dictGet d key = some (.dict dd) →
      r.get_bool key raise_error =
        (if raise_error then
          .error (.typeError ("Value for " ++ key ++ " is not bool-convertible"))
         else .ok none)) ∧
    (dictGet d key = some (.str "YES") → r.get_bool key raise_error = .ok (some true)) ∧
    (dictGet d key = some (.str "maybe") →
      r.get_bool key raise_error =
        (if raise_error then
          .error (.typeError ("Value for " ++ key ++ " is not bool-convertible"))
         else .ok none)) := by
  refine ⟨?_, ?_, ?_, ?_, ?_, ?_, ?_, ?_, ?_, ?_⟩
  · intro hk; simp [Record.get_bool, h, hk]
  · intro hk; simp [Record.get_bool, h, hk]
  · intro b hk; simp [Record.get_bool, h, hk]
  · intro s hk
    refine ⟨?_, ?_, ?_⟩
    · intro hset
      simp only [Record.get_bool, h, hk]
      rw [if_pos hset]
    · intro hset
      rcases hset with h1 | h1 | h1 <;> simp only [Record.get_bool, h, hk, h1] <;> rfl
    · intro h1 h2
      simp only [Record.get_bool, h, hk]
      rw [if_neg h1, if_neg h2]
  · intro n hk; simp [Record.get_bool, h, hk, pyInt]
  · intro q hk; simp [Record.get_bool, h, hk, pyInt]
  · intro l hk; simp [Record.get_bool, h, hk, pyInt]
  · intro dd hk; simp [Record.get_bool, h, hk, pyInt]
  · intro hk
    simp only [Record.get_bool, h, hk]
    rfl
  · intro hk
    simp only [Record.get_bool, h, hk]
    rfl

/-- C7 amended witness: on the concrete record, `get_bool` of the stored
`"YES"` is true and of the stored `"maybe"` is the strict `TypeError`. -/
theorem get_bool_policy_witness :
    Record.get_bool recTokens "y" false = .ok (some true) ∧
    Record.get_bool recTokens "m" true =
      .error (.typeError ("Value for " ++ "m" ++ " is not bool-convertible")) :=
  ⟨(get_bool_policy recTokens [("y", .str "YES"), ("m", .str "maybe")] "y" false
      rfl).2.2.2.2.2.2.2.2.1 rfl,
   by
    have := (get_bool_policy recTokens [("y", .str "YES"), ("m", .str "maybe")] "m" true
      rfl).2.2.2.2.2.2.2.2.2 rfl
    simpa using this⟩

/-- C8: round-trip of the document blob through the constructor: whenever
the blob's `data` entry is a mapping and construction succeeds (it does for
every service-shaped blob, whether or not `collection_id` or `created_at`
are present), the record's field map is exactly that mapping and `get` on
each of its keys returns the original value. -/
theorem record_roundtrip (blob d : List (String × Value)) (rec : Record)
    (h1 : dictGet blob "data" = some (.dict d))
    (h2 : Record.ofJson (.dict blob) = .ok rec) :
    rec.data = .dict d ∧
    ∀ (k : String) (v : Value), dictGet d k = some v → rec.get k = .ok v := by
  cases hts : pyFromtimestamp ((dictGet blob "created_at").getD (.int 0)) with
  | error e => simp [Record.ofJson, hts] at h2
  | ok t =>
      simp only [Record.ofJson, hts, Except.ok.injEq] at h2
      subst h2
      constructor
      · simp [h1]
      · intro k v hk
        simp [Record.get, h1, hk]

/-- C8 witness: the record built from the concrete blob (which has no
`collection_id` and no `created_at` entry) returns the original data value
at key `"a"`. -/
theorem record_roundtrip_witness : Record.get recRT "a" = .ok (.int 1) :=
  (record_roundtrip blobRT [("a", .int 1)] recRT rfl rfl).2 "a" (.int 1) rfl

/-- C9: `get_string` is total on records whose field payload is a mapping
(as the class declares): in both modes it returns a result rather than
raising — the strict branch is dead since string conversion of a JSON value
always succeeds — and the result is the absent `None` exactly when the key
is missing from the map or the stored value is null, so the two cases are
indistinguishable to the caller. -/
theorem get_string_total (r : Record) (d : List (String × Value)) (key : String)
    (raise_error : Bool) (h : r.data = .dict d) :
    (∃ o, r.get_string key raise_error = .ok o) ∧
    (r.get_string key raise_error = .ok none ↔
      dictGet d key = none ∨ dictGet d key = some .null) := by
  cases hk : dictGet d key with
  | none =>
      exact ⟨⟨none, by simp [Record.get_string, h, hk]⟩,
        by simp [Record.get_string, h, hk]⟩
  | some v =>
      cases v with
      | null =>
          exact ⟨⟨none, by simp [Record.get_string, h, hk]⟩,
            by simp [Record.get_string, h, hk]⟩
      | bool b =>
          exact ⟨⟨some (pyStr (.bool b)), by simp [Record.get_string, h, hk]⟩,
            by simp [Record.get_string, h, hk]⟩
      | int n =>
          exact ⟨⟨some (pyStr (.int n)), by simp [Record.get_string, h, hk]⟩,
            by simp [Record.get_string, h, hk]⟩
      | float q =>
          exact ⟨⟨some (pyStr (.float q)), by simp [Record.get_string, h, hk]⟩,
            by simp [Record.get_string, h, hk]⟩
      | str s =>
          exact ⟨⟨some (pyStr (.str s)), by simp [Record.get_string, h, hk]⟩,
            by simp [Record.get_string, h, hk]⟩
      | list l =>
          exact ⟨⟨some (pyStr (.list l)), by simp [Record.get_string, h, hk]⟩,
            by simp [Record.get_string, h, hk]⟩
      | dict dd =>
          exact ⟨⟨some (pyStr (.dict dd)), by simp [Record.get_string, h, hk]⟩,
            by simp [Record.get_string, h, hk]⟩

/-- C9 witness: on the concrete record, strict-mode `get_string` of a stored
string returns a result rather than raising. -/
theorem get_string_total_witness :
    ∃ o, Record.get_string recStr "k" true = .ok o :=
  (get_string_total recStr [("k", .str "v")] "k" true rfl).1

/-- C10: on a record whose field payload is a mapping, the index-style read
raises `KeyError` exactly on absent keys while `get` returns the supplied
default there without error, and on present keys both return the stored
value. -/
theorem getitem_versus_get (r : Record) (d : List (String × Value)) (key : String)
    (h : r.data = .dict d) :
    (dictGet d key = none →
      r.getitem key = .error (.keyError key) ∧
      ∀ default, r.get key default = .ok default) ∧
    (∀ v, dictGet d key = some v →
      r.getitem key = .ok v ∧
      ∀ default, r.get key default = .ok v) := by
  constructor
  · intro hk
    exact ⟨by simp [Record.getitem, h, hk], fun default => by simp [Record.get, h, hk]⟩
  · intro v hk
    exact ⟨by simp [Record.getitem, h, hk], fun default => by simp [Record.get, h, hk]⟩

/-- C10 witness: on the concrete record, reading the absent key `"q"` by
index raises `KeyError` while `get` returns the default, and the present key
`"p"` yields the stored value both ways. -/
theorem getitem_versus_get_witness :
    (Record.getitem recIdx "q" = .error (.keyError "q") ∧
      Record.get recIdx "q" (.int 5) = .ok (.int 5)) ∧
    (Record.getitem recIdx "p" = .ok (.int 3) ∧
      Record.get recIdx "p" = .ok (.int 3)) :=
  ⟨⟨((getitem_versus_get recIdx [("p", .int 3)] "q" rfl).1 rfl).1,
    ((getitem_versus_get recIdx [("p", .int 3)] "q" rfl).1 rfl).2 (.int 5)⟩,
   ⟨((getitem_versus_get recIdx [("p", .int 3)] "p" rfl).2 (.int 3) rfl).1,
    ((getitem_versus_get recIdx [("p", .int 3)] "p" rfl).2 (.int 3) rfl).2 .null⟩⟩
